import Mathlib

/-!
Verification of the aws_ses repository: a shallow embedding of
`src/aws_ses/profile_manager.py`, `src/aws_ses/ses_client.py` and
`src/aws_ses/lambda_handler.py`, followed by theorems about the embedded
operations. External collaborators (boto3 sessions, the SES service) are
modelled as explicit parameters: the list of available profiles is passed
in, and the remote send call is a function argument whose result is the
MessageId on success or the error text on failure.
-/

namespace AwsSes

/-- A Python value that is either a single string or a list of strings,
as accepted by the recipient-style parameters of `send_email`. -/
inductive StrOrList where
  | str (s : String)
  | list (l : List String)
deriving DecidableEq

/-- Python truthiness for a string-or-list value: the empty string and the
empty list are falsy. -/
def pyTruthy : StrOrList → Bool
  | .str s => s != ""
  | .list l => !l.isEmpty

/-- Python truthiness of an optional string (`None` and `""` are falsy). -/
def truthyOptStr : Option String → Bool
  | none => false
  | some s => s != ""

/-- Python truthiness of an optional string-or-list value. -/
def truthyOpt : Option StrOrList → Bool
  | none => false
  | some v => pyTruthy v

/-- Python `str.lower()` (ASCII case folding, which is all the code relies
on for comparing against the sentinel "latest"). -/
def pyLower (s : String) : String := ⟨s.data.map Char.toLower⟩

/-- Python `a or b` on optional strings: `a` when it is truthy, else `b`
(models `event.get(k) or os.environ.get(K)` in the lambda handler). -/
def pyOr (a b : Option String) : Option String :=
  match a with
  | some s => if s = "" then b else some s
  | none => b

/-- `ProfileManager.get_latest_profile` (profile_manager.py lines 26-37):
`None` when no profiles exist, otherwise the last element of the list. -/
def ProfileManager.get_latest_profile (available_profiles : List String) :
    Option String :=
  available_profiles.getLast?

/-- `ProfileManager.resolve_profile_name` (profile_manager.py lines 62-84),
with the externally enumerated profile list passed explicitly. Returns
`.ok none` for a falsy (absent or empty) name; for the case-insensitive
sentinel "latest" it fetches the last available profile and guards it with
`if not latest_profile:` — Python truthiness, so both `None` (empty list)
and an empty-string last profile raise `ValueError`, modelled as `.error` —
returning the fetched profile otherwise; any other name passes through. -/
def ProfileManager.resolve_profile_name (available_profiles : List String) :
    Option String → Except String (Option String)
  | none => .ok none
  | some p =>
    if p = "" then .ok none
    else if pyLower p = "latest" then
      let latest_profile := ProfileManager.get_latest_profile
        available_profiles
      if truthyOptStr latest_profile then .ok latest_profile
      else .error "No AWS profiles found when trying to use \x27latest\x27"
    else .ok (some p)

/-- A boto3 session, reduced to the profile it is bound to (`None` means the
environment default). -/
structure Session where
  profile_name : Option String
deriving DecidableEq

/-- The state an `SESClient` holds after `__init__` (ses_client.py
lines 16-28): the (possibly rewritten) profile name, the region, and the
session created by `_create_session`. -/
structure SESClient where
  profile_name : Option String
  region_name : Option String
  session : Session
deriving DecidableEq

/-- `SESClient.__init__` together with `_create_session` (ses_client.py
lines 16-49). A falsy profile name yields the default session; the
case-insensitive "latest" resolves to the last available profile — note the
method also reassigns `self.profile_name` to the resolved name — and raises
`ValueError("No AWS profiles found")` when no profiles exist; any other name
is bound directly. Failure here is a construction-time failure. -/
def SESClient.init (available_profiles : List String)
    (profile_name region_name : Option String) : Except String SESClient :=
  match profile_name with
  | none => .ok { profile_name := none, region_name := region_name,
                  session := { profile_name := none } }
  | some p =>
    if p = "" then
      .ok { profile_name := some p, region_name := region_name,
            session := { profile_name := none } }
    else if pyLower p = "latest" then
      match available_profiles.getLast? with
      | none => .error "No AWS profiles found"
      | some q => .ok { profile_name := some q, region_name := region_name,
                        session := { profile_name := some q } }
    else
      .ok { profile_name := some p, region_name := region_name,
            session := { profile_name := some p } }

/-- Normalization of `to_addresses` (ses_client.py lines 82-83): a single
string is wrapped in a one-element list, a list is used as-is. -/
def normalize_to (to_addresses : StrOrList) : List String :=
  match to_addresses with
  | .str s => [s]
  | .list l => l

/-- Normalization of `cc_addresses` / `bcc_addresses` /
`reply_to_addresses` (ses_client.py lines 84-89): the wrap happens only when
the value is truthy AND a string, so the empty string is left unchanged. -/
def normalize_optional : Option StrOrList → Option StrOrList
  | some (.str s) => if s = "" then some (.str s) else some (.list [s])
  | v => v

/-- The `Body` dict of the message: `Text` always present, `Html` optional. -/
structure MessageBody where
  text : String
  html : Option String
deriving DecidableEq

/-- The `Message` dict (ses_client.py lines 92-98). -/
structure Message where
  subject : String
  body : MessageBody
deriving DecidableEq

/-- The `Destination` dict (ses_client.py lines 100-105): `ToAddresses`
always present, `CcAddresses` / `BccAddresses` only when truthy. -/
structure Destination where
  toAddresses : List String
  ccAddresses : Option StrOrList
  bccAddresses : Option StrOrList
deriving DecidableEq

/-- The `email_params` dict passed to the remote send call (ses_client.py
lines 107-115). -/
structure EmailParams where
  source : String
  destination : Destination
  message : Message
  replyToAddresses : Option StrOrList
deriving DecidableEq

/-- Assembly of `email_params` inside `SESClient.send_email` (ses_client.py
lines 81-115): normalize the four recipient parameters, build the message
(HTML part only when `body_html` is truthy), the destination (cc/bcc only
when truthy after normalization), and attach `ReplyToAddresses` only when
truthy after normalization. -/
def build_email_params (source : String) (to_addresses : StrOrList)
    (subject : String) (body_text : String) (body_html : Option String)
    (cc_addresses bcc_addresses reply_to_addresses : Option StrOrList) :
    EmailParams :=
  let to_norm := normalize_to to_addresses
  let cc_norm := normalize_optional cc_addresses
  let bcc_norm := normalize_optional bcc_addresses
  let reply_norm := normalize_optional reply_to_addresses
  { source := source
    destination :=
      { toAddresses := to_norm
        ccAddresses := if truthyOpt cc_norm then cc_norm else none
        bccAddresses := if truthyOpt bcc_norm then bcc_norm else none }
    message :=
      { subject := subject
        body :=
          { text := body_text
            html := match body_html with
              | some h => if h = "" then none else some h
              | none => none } }
    replyToAddresses := if truthyOpt reply_norm then reply_norm else none }

/-- `SESClient.send_email` (ses_client.py lines 51-123): assembles the
request and performs exactly one remote call with it. The remote service is
the function argument `remote`; its `.ok` value stands for the response
(exposing the MessageId), its `.error` value for the raised error text,
which is re-raised unmodified. -/
def SESClient.send_email (remote : EmailParams → Except String String)
    (_client : SESClient) (source : String) (to_addresses : StrOrList)
    (subject : String) (body_text : String) (body_html : Option String)
    (cc_addresses bcc_addresses reply_to_addresses : Option StrOrList) :
    Except String String :=
  remote (build_email_params source to_addresses subject body_text body_html
    cc_addresses bcc_addresses reply_to_addresses)

/-- The lambda event (lambda_handler.py lines 15-27): every field is
optional, `event.get` returning `none` for an absent key. -/
structure Event where
  source : Option String
  to_addresses : Option StrOrList
  subject : Option String
  body_text : Option String
  body_html : Option String
  cc_addresses : Option StrOrList
  bcc_addresses : Option StrOrList
  reply_to_addresses : Option StrOrList
  profile_name : Option String
  region_name : Option String
deriving DecidableEq

/-- The environment variables consulted by the handler. -/
structure Env where
  AWS_PROFILE : Option String
  AWS_REGION : Option String
deriving DecidableEq

/-- The JSON body of a handler response, modelled structurally: its
`message` and optional `messageId`. -/
structure ResponseBody where
  message : String
  messageId : Option String
deriving DecidableEq

/-- A handler response: `statusCode` plus body. -/
structure HandlerResponse where
  statusCode : Nat
  body : ResponseBody
deriving DecidableEq

/-- A handler run together with its observable side effects: whether the
`SESClient` constructor was reached and the list of remote send calls
issued. -/
structure HandlerOutcome where
  response : HandlerResponse
  clientConstructionAttempted : Bool
  remoteCalls : List EmailParams
deriving DecidableEq

/-- The lambda `handler` (lambda_handler.py lines 11-91). Extracts the
fields, applies the `or`-fallback to environment variables for profile and
region, returns 400 when any required field is falsy, otherwise constructs
the client and sends; any raised error (construction or remote) is caught
and reported as a 500 whose message embeds the error text. -/
def handler (env : Env) (available_profiles : List String)
    (remote : EmailParams → Except String String) (event : Event) :
    HandlerOutcome :=
  let profile_name := pyOr event.profile_name env.AWS_PROFILE
  let region_name := pyOr event.region_name env.AWS_REGION
  if truthyOptStr event.source && truthyOpt event.to_addresses &&
      truthyOptStr event.subject && truthyOptStr event.body_text then
    match SESClient.init available_profiles profile_name region_name with
    | .error e =>
      { response :=
          { statusCode := 500,
            body :=
              { message := "Error sending email: " ++ e, messageId := none } },
        clientConstructionAttempted := true,
        remoteCalls := [] }
    | .ok client =>
      let params := build_email_params (event.source.getD "")
        (event.to_addresses.getD (.list [])) (event.subject.getD "")
        (event.body_text.getD "") event.body_html event.cc_addresses
        event.bcc_addresses event.reply_to_addresses
      match SESClient.send_email remote client (event.source.getD "")
          (event.to_addresses.getD (.list [])) (event.subject.getD "")
          (event.body_text.getD "") event.body_html event.cc_addresses
          event.bcc_addresses event.reply_to_addresses with
      | .ok response =>
        { response :=
            { statusCode := 200,
              body :=
                { message := "Email sent successfully",
                  messageId := some response } },
          clientConstructionAttempted := true,
          remoteCalls := [params] }
      | .error e =>
        { response :=
            { statusCode := 500,
              body :=
                { message := "Error sending email: " ++ e,
                  messageId := none } },
          clientConstructionAttempted := true,
          remoteCalls := [params] }
  else
    { response :=
        { statusCode := 400,
          body :=
            { message := "Missing required parameters. Required: source, to_addresses, subject, body_text",
              messageId := none } },
      clientConstructionAttempted := false,
      remoteCalls := [] }

/-- `s` contains `sub` as a substring. -/
def strContains (s sub : String) : Prop := ∃ a b, s = a ++ sub ++ b

/-- The 500-response message embeds both the fixed text and the underlying
error text. -/
theorem strContains_error_msg (m : String) :
    strContains ("Error sending email: " ++ m) "Error sending email" ∧
    strContains ("Error sending email: " ++ m) m := by
  constructor
  · refine ⟨"", ": " ++ m, ?_⟩
    rw [String.empty_append, ← String.append_assoc]
    congr 1
  · refine ⟨"Error sending email: ", "", ?_⟩
    rw [String.append_empty]

/-- The 400-response message embeds the fixed validation text. -/
theorem strContains_missing_msg :
    strContains
      "Missing required parameters. Required: source, to_addresses, subject, body_text"
      "Missing required parameters" :=
  ⟨"", ". Required: source, to_addresses, subject, body_text", by decide⟩

/-- When the required-fields truthiness check fails, the handler returns the
400 outcome: no client construction, no remote call. -/
theorem handler_400_of_required_falsy (env : Env)
    (available_profiles : List String)
    (remote : EmailParams → Except String String) (event : Event)
    (hcond : (truthyOptStr event.source && truthyOpt event.to_addresses &&
      truthyOptStr event.subject && truthyOptStr event.body_text) = false) :
    handler env available_profiles remote event =
      { response :=
          { statusCode := 400,
            body :=
              { message := "Missing required parameters. Required: source, to_addresses, subject, body_text",
                messageId := none } },
        clientConstructionAttempted := false,
        remoteCalls := [] } := by
  simp [handler, hcond]

/-- C1 (counterexample): supplying the single string `""` as `cc_addresses`
does not normalize to the one-element list `[""]` — the truthiness guard on
lines 84-85 of ses_client.py skips the wrap, leaving the value a string. -/
theorem c1_counterexample :
    normalize_optional (some (.str "")) = some (.str "") ∧
    normalize_optional (some (.str "")) ≠ some (.list [""]) := by
  decide

/-- C1 (amended): `to_addresses` normalization wraps every single string
(including `""`) into a one-element list and is the identity on lists; for
`cc_addresses` / `bcc_addresses` / `reply_to_addresses` a NON-EMPTY single
string is wrapped into a one-element list, the empty string is left
unchanged, and lists are the identity. -/
theorem c1_normalization_amended :
    (∀ s, normalize_to (.str s) = [s]) ∧
    (∀ l, normalize_to (.list l) = l) ∧
    (∀ s, s ≠ "" → normalize_optional (some (.str s)) = some (.list [s])) ∧
    normalize_optional (some (.str "")) = some (.str "") ∧
    (∀ l, normalize_optional (some (.list l)) = some (.list l)) := by
  refine ⟨fun s => rfl, fun l => rfl, fun s hs => ?_, rfl, fun l => rfl⟩
  simp [normalize_optional, hs]

/-- C1 witness: a concrete non-empty single string is wrapped. -/
theorem c1_normalization_amended_witness :
    normalize_optional (some (.str "cc@x.com")) = some (.list ["cc@x.com"]) :=
  c1_normalization_amended.2.2.1 "cc@x.com" (by decide)

/-- C2 (counterexample): with the non-empty profile list `["a", ""]` — last
element `pn = ""` — resolution of "latest" raises `ValueError` instead of
returning `""`: the guard `if not latest_profile:` at profile_manager.py
line 80 uses Python truthiness, which also rejects an empty-string last
profile. -/
theorem c2_counterexample :
    ProfileManager.resolve_profile_name ["a", ""] (some "latest") =
      .error "No AWS profiles found when trying to use \x27latest\x27" ∧
    ProfileManager.resolve_profile_name ["a", ""] (some "latest") ≠
      .ok (some "") :=
  ⟨rfl, fun h => nomatch h⟩

/-- C2 (amended): resolving the case-insensitive sentinel "latest" fails
with the no-profiles error when the profile list is empty, and also when its
last element is the empty string (falsy); it returns the last element when
that element is non-empty. Constructing an `SESClient` with profile "latest"
fails at construction time when no profiles exist — its own guard checks
emptiness of the profile list, not the last element — and otherwise binds
the client to the last profile. -/
theorem c2_resolve_latest :
    (∀ p, pyLower p = "latest" →
      ProfileManager.resolve_profile_name [] (some p) =
        .error "No AWS profiles found when trying to use \x27latest\x27") ∧
    (∀ p ps pn, pyLower p = "latest" → ps.getLast? = some pn → pn ≠ "" →
      ProfileManager.resolve_profile_name ps (some p) = .ok (some pn)) ∧
    (∀ p ps, pyLower p = "latest" → ps.getLast? = some "" →
      ProfileManager.resolve_profile_name ps (some p) =
        .error "No AWS profiles found when trying to use \x27latest\x27") ∧
    (∀ r, SESClient.init [] (some "latest") r =
      .error "No AWS profiles found") ∧
    (∀ ps pn r, ps.getLast? = some pn →
      SESClient.init ps (some "latest") r =
        .ok { profile_name := some pn, region_name := r,
              session := { profile_name := some pn } }) := by
  have hne : ∀ p : String, pyLower p = "latest" → p ≠ "" := by
    intro p hp h
    subst h
    exact absurd hp (by decide)
  refine ⟨fun p hp => ?_, fun p ps pn hp hl hpn => ?_,
    fun p ps hp hl => ?_, fun r => rfl, fun ps pn r hl => ?_⟩
  · simp [ProfileManager.resolve_profile_name,
      ProfileManager.get_latest_profile, hne p hp, hp, truthyOptStr]
  · simp [ProfileManager.resolve_profile_name,
      ProfileManager.get_latest_profile, hne p hp, hp, hl, truthyOptStr,
      hpn]
  · simp [ProfileManager.resolve_profile_name,
      ProfileManager.get_latest_profile, hne p hp, hp, hl, truthyOptStr]
  · have hlow : pyLower "latest" = "latest" := rfl
    simp [SESClient.init, hl, hlow]

/-- C2 witness: concrete instances of all hypothesis-bearing parts, the
empty-string-last-profile error case included. -/
theorem c2_resolve_latest_witness :
    ProfileManager.resolve_profile_name [] (some "LATEST") =
      .error "No AWS profiles found when trying to use \x27latest\x27" ∧
    ProfileManager.resolve_profile_name ["p1", "p2"] (some "latest") =
      .ok (some "p2") ∧
    ProfileManager.resolve_profile_name ["p1", ""] (some "Latest") =
      .error "No AWS profiles found when trying to use \x27latest\x27" ∧
    SESClient.init [] (some "latest") none = .error "No AWS profiles found" ∧
    SESClient.init ["p1", "p2"] (some "latest") none =
      .ok { profile_name := some "p2", region_name := none,
            session := { profile_name := some "p2" } } :=
  ⟨c2_resolve_latest.1 "LATEST" (by decide),
   c2_resolve_latest.2.1 "latest" ["p1", "p2"] "p2" (by decide) (by decide)
     (by decide),
   c2_resolve_latest.2.2.1 "Latest" ["p1", ""] (by decide) (by decide),
   c2_resolve_latest.2.2.2.1 none,
   c2_resolve_latest.2.2.2.2 ["p1", "p2"] "p2" none (by decide)⟩

/-- C3: resolution of an absent or empty profile name gives `none`, and any
name that is not the (case-insensitive) sentinel passes through unchanged,
regardless of the profile list — no existence check happens in resolve. -/
theorem c3_resolve_passthrough :
    (∀ ps, ProfileManager.resolve_profile_name ps none = .ok none) ∧
    (∀ ps, ProfileManager.resolve_profile_name ps (some "") = .ok none) ∧
    (∀ ps p, p ≠ "" → pyLower p ≠ "latest" →
      ProfileManager.resolve_profile_name ps (some p) = .ok (some p)) := by
  refine ⟨fun ps => rfl, fun ps => rfl, fun ps p h1 h2 => ?_⟩
  simp [ProfileManager.resolve_profile_name, h1, h2]

/-- C3 witness: "custom" passes through a non-empty profile list that does
not contain it. -/
theorem c3_resolve_passthrough_witness :
    ProfileManager.resolve_profile_name ["a", "b"] none = .ok none ∧
    ProfileManager.resolve_profile_name ["a", "b"] (some "custom") =
      .ok (some "custom") :=
  ⟨c3_resolve_passthrough.1 ["a", "b"],
   c3_resolve_passthrough.2.2 ["a", "b"] "custom" (by decide) (by decide)⟩

/-- C4: a send with only the required fields assembles a request with the
normalized to-addresses and the plain-text body, and with no cc, bcc,
reply-to or HTML fields. -/
theorem c4_required_only_request (source : String) (to_addresses : StrOrList)
    (subject body_text : String) :
    (build_email_params source to_addresses subject body_text none none none
        none).destination.toAddresses = normalize_to to_addresses ∧
    (build_email_params source to_addresses subject body_text none none none
        none).message.body.text = body_text ∧
    (build_email_params source to_addresses subject body_text none none none
        none).destination.ccAddresses = none ∧
    (build_email_params source to_addresses subject body_text none none none
        none).destination.bccAddresses = none ∧
    (build_email_params source to_addresses subject body_text none none none
        none).replyToAddresses = none ∧
    (build_email_params source to_addresses subject body_text none none none
        none).message.body.html = none :=
  ⟨rfl, rfl, rfl, rfl, rfl, rfl⟩

/-- C5 (counterexample): `body_html` supplied as the empty string is a
supplied parameter, yet the assembled body has no HTML part — the truthiness
guard `if body_html:` on line 97 of ses_client.py drops it. -/
theorem c5_counterexample :
    some "" ≠ (none : Option String) ∧
    (build_email_params "a@x.com" (.str "b@x.com") "s" "t" (some "") none
        none none).message.body.html = none := by
  exact ⟨by decide, rfl⟩

/-- C5 (amended): the assembled body always contains the text part, and
contains an HTML part if and only if `body_html` is supplied AND non-empty,
in which case the part carries exactly the supplied content. -/
theorem c5_html_amended (source : String) (to_addresses : StrOrList)
    (subject body_text : String) (body_html : Option String)
    (cc_addresses bcc_addresses reply_to_addresses : Option StrOrList) :
    (build_email_params source to_addresses subject body_text body_html
        cc_addresses bcc_addresses reply_to_addresses).message.body.text =
      body_text ∧
    (∀ h, body_html = some h → h ≠ "" →
      (build_email_params source to_addresses subject body_text body_html
          cc_addresses bcc_addresses reply_to_addresses).message.body.html =
        some h) ∧
    ((build_email_params source to_addresses subject body_text body_html
        cc_addresses bcc_addresses reply_to_addresses).message.body.html ≠
        none ↔ ∃ h, body_html = some h ∧ h ≠ "") := by
  refine ⟨rfl, fun h hh hne => ?_, ?_⟩
  · simp [build_email_params, hh, hne]
  · cases body_html with
    | none => simp [build_email_params]
    | some h =>
      by_cases hh : h = ""
      · subst hh
        simp [build_email_params]
      · simp [build_email_params, hh]

/-- C5 witness: a concrete non-empty `body_html` lands in the body. -/
theorem c5_html_amended_witness :
    (build_email_params "a@x.com" (.str "b@x.com") "s" "t"
        (some "<h1>hi</h1>") none none none).message.body.html =
      some "<h1>hi</h1>" :=
  (c5_html_amended "a@x.com" (.str "b@x.com") "s" "t" (some "<h1>hi</h1>")
    none none none).2.1 "<h1>hi</h1>" rfl (by decide)

/-- C6 (counterexample): `send_email` performs no validation, so a call with
empty source, empty to-list, empty subject and empty body text still reaches
the remote call, with a request violating every clause of the claimed
invariant. -/
theorem c6_counterexample :
    ∃ p : EmailParams,
      (∀ remote client,
        SESClient.send_email remote client "" (.list []) "" "" none none none
          none = remote p) ∧
      p.destination.toAddresses = [] ∧ p.source = "" ∧
      p.message.subject = "" ∧ p.message.body.text = "" :=
  ⟨build_email_params "" (.list []) "" "" none none none none,
   fun _ _ => rfl, rfl, rfl, rfl, rfl⟩

/-- C6 (amended): `send_email` itself enforces nothing; the invariant holds
exactly for the inputs that pass the Python-truthiness validation performed
at the event-entry boundary (non-empty source, subject and body text, and a
truthy to-addresses value). -/
theorem c6_invariant_amended (source : String) (to_addresses : StrOrList)
    (subject body_text : String) (body_html : Option String)
    (cc_addresses bcc_addresses reply_to_addresses : Option StrOrList)
    (hs : source ≠ "") (hsub : subject ≠ "") (hbt : body_text ≠ "")
    (hto : pyTruthy to_addresses = true) :
    (build_email_params source to_addresses subject body_text body_html
        cc_addresses bcc_addresses reply_to_addresses).source ≠ "" ∧
    (build_email_params source to_addresses subject body_text body_html
        cc_addresses bcc_addresses
        reply_to_addresses).destination.toAddresses ≠ [] ∧
    (build_email_params source to_addresses subject body_text body_html
        cc_addresses bcc_addresses reply_to_addresses).message.subject ≠
      "" ∧
    (build_email_params source to_addresses subject body_text body_html
        cc_addresses bcc_addresses reply_to_addresses).message.body.text ≠
      "" := by
  refine ⟨hs, ?_, hsub, hbt⟩
  cases to_addresses with
  | str s => simp [build_email_params, normalize_to]
  | list l =>
    cases l with
    | nil => simp [pyTruthy, List.isEmpty] at hto
    | cons a as => simp [build_email_params, normalize_to]

/-- C6 witness: truthy concrete inputs yield a non-empty to-list. -/
theorem c6_invariant_amended_witness :
    (build_email_params "a@x.com" (.str "b@x.com") "s" "t" none none none
        none).destination.toAddresses ≠ [] :=
  (c6_invariant_amended "a@x.com" (.str "b@x.com") "s" "t" none none none
    none (by decide) (by decide) (by decide) (by decide)).2.1

/-- C7: when any required field is absent from the event, the handler
returns 400 with the "Missing required parameters" message, constructs no
client and issues no remote call. -/
theorem c7_missing_params_400 (env : Env) (available_profiles : List String)
    (remote : EmailParams → Except String String) (event : Event)
    (hmissing : event.source = none ∨ event.to_addresses = none ∨
      event.subject = none ∨ event.body_text = none) :
    (handler env available_profiles remote event).response.statusCode =
      400 ∧
    strContains
      (handler env available_profiles remote event).response.body.message
      "Missing required parameters" ∧
    (handler env available_profiles remote
      event).clientConstructionAttempted = false ∧
    (handler env available_profiles remote event).remoteCalls = [] := by
  have hcond : (truthyOptStr event.source && truthyOpt event.to_addresses &&
      truthyOptStr event.subject && truthyOptStr event.body_text) = false :=
    by rcases hmissing with h | h | h | h <;>
      simp [h, truthyOptStr, truthyOpt]
  rw [handler_400_of_required_falsy env available_profiles remote event
    hcond]
  exact ⟨rfl, strContains_missing_msg, rfl, rfl⟩

/-- C7 witness: an event missing `body_text` gets the 400 outcome with no
construction and no remote call. -/
theorem c7_missing_params_400_witness :
    (handler ⟨none, none⟩ [] (fun _ => .ok "mid")
        ⟨some "a@x.com", some (.str "b@x.com"), some "s", none, none, none,
         none, none, none, none⟩).response.statusCode = 400 ∧
    strContains
      (handler ⟨none, none⟩ [] (fun _ => .ok "mid")
        ⟨some "a@x.com", some (.str "b@x.com"), some "s", none, none, none,
         none, none, none, none⟩).response.body.message
      "Missing required parameters" ∧
    (handler ⟨none, none⟩ [] (fun _ => .ok "mid")
        ⟨some "a@x.com", some (.str "b@x.com"), some "s", none, none, none,
         none, none, none, none⟩).clientConstructionAttempted = false ∧
    (handler ⟨none, none⟩ [] (fun _ => .ok "mid")
        ⟨some "a@x.com", some (.str "b@x.com"), some "s", none, none, none,
         none, none, none, none⟩).remoteCalls = [] :=
  c7_missing_params_400 ⟨none, none⟩ [] (fun _ => .ok "mid")
    ⟨some "a@x.com", some (.str "b@x.com"), some "s", none, none, none,
     none, none, none, none⟩ (Or.inr (Or.inr (Or.inr rfl)))

/-- C8: with all required fields present (truthy), a successful client
construction and a remote call succeeding with MessageId `mid`, the handler
returns 200 with the success message and that MessageId. -/
theorem c8_success_200 (env : Env) (available_profiles : List String)
    (remote : EmailParams → Except String String) (event : Event)
    (mid : String) (client : SESClient)
    (h1 : truthyOptStr event.source = true)
    (h2 : truthyOpt event.to_addresses = true)
    (h3 : truthyOptStr event.subject = true)
    (h4 : truthyOptStr event.body_text = true)
    (hinit : SESClient.init available_profiles
        (pyOr event.profile_name env.AWS_PROFILE)
        (pyOr event.region_name env.AWS_REGION) = .ok client)
    (hremote : remote (build_email_params (event.source.getD "")
        (event.to_addresses.getD (.list [])) (event.subject.getD "")
        (event.body_text.getD "") event.body_html event.cc_addresses
        event.bcc_addresses event.reply_to_addresses) = .ok mid) :
    (handler env available_profiles remote event).response =
      { statusCode := 200,
        body := { message := "Email sent successfully",
                  messageId := some mid } } := by
  simp [handler, h1, h2, h3, h4, hinit, SESClient.send_email, hremote]

/-- C8 witness: a concrete minimal event with a stub remote service. -/
theorem c8_success_200_witness :
    (handler ⟨none, none⟩ [] (fun _ => .ok "msg-123")
        ⟨some "a@x.com", some (.str "b@x.com"), some "s", some "t", none,
         none, none, none, none, none⟩).response =
      { statusCode := 200,
        body := { message := "Email sent successfully",
                  messageId := some "msg-123" } } :=
  c8_success_200 ⟨none, none⟩ [] (fun _ => .ok "msg-123")
    ⟨some "a@x.com", some (.str "b@x.com"), some "s", some "t", none, none,
     none, none, none, none⟩ "msg-123"
    { profile_name := none, region_name := none,
      session := { profile_name := none } }
    (by decide) (by decide) (by decide) (by decide) rfl rfl

/-- C9: with all required fields present (truthy), when client construction
fails with error text `m`, or construction succeeds and the remote call
fails with error text `m`, the handler returns 500 with a message containing
both "Error sending email" and `m`; at most one remote call is made. -/
theorem c9_error_500 (env : Env) (available_profiles : List String)
    (remote : EmailParams → Except String String) (event : Event)
    (m : String)
    (h1 : truthyOptStr event.source = true)
    (h2 : truthyOpt event.to_addresses = true)
    (h3 : truthyOptStr event.subject = true)
    (h4 : truthyOptStr event.body_text = true)
    (herr : SESClient.init available_profiles
        (pyOr event.profile_name env.AWS_PROFILE)
        (pyOr event.region_name env.AWS_REGION) = .error m ∨
      ((∃ client, SESClient.init available_profiles
          (pyOr event.profile_name env.AWS_PROFILE)
          (pyOr event.region_name env.AWS_REGION) = .ok client) ∧
        remote (build_email_params (event.source.getD "")
          (event.to_addresses.getD (.list [])) (event.subject.getD "")
          (event.body_text.getD "") event.body_html event.cc_addresses
          event.bcc_addresses event.reply_to_addresses) = .error m)) :
    (handler env available_profiles remote event).response.statusCode =
      500 ∧
    strContains
      (handler env available_profiles remote event).response.body.message
      "Error sending email" ∧
    strContains
      (handler env available_profiles remote event).response.body.message m ∧
    (handler env available_profiles remote event).remoteCalls.length ≤ 1 := by
  have hmsg : (handler env available_profiles remote
      event).response.body.message = "Error sending email: " ++ m ∧
      (handler env available_profiles remote
        event).response.statusCode = 500 ∧
      (handler env available_profiles remote
        event).remoteCalls.length ≤ 1 := by
    rcases herr with herr | ⟨⟨client, hok⟩, hrem⟩
    · refine ⟨?_, ?_, ?_⟩ <;> simp [handler, h1, h2, h3, h4, herr]
    · refine ⟨?_, ?_, ?_⟩ <;>
        simp [handler, h1, h2, h3, h4, hok, SESClient.send_email, hrem]
  rw [hmsg.1]
  exact ⟨hmsg.2.1, (strContains_error_msg m).1, (strContains_error_msg m).2,
    hmsg.2.2⟩

/-- C9 witness: profile "latest" with no profiles makes construction fail,
and the handler reports 500 embedding the construction error text. -/
theorem c9_error_500_witness :
    (handler ⟨none, none⟩ [] (fun _ => .ok "mid")
        ⟨some "a@x.com", some (.str "b@x.com"), some "s", some "t", none,
         none, none, none, some "latest", none⟩).response.statusCode = 500 ∧
    strContains
      (handler ⟨none, none⟩ [] (fun _ => .ok "mid")
        ⟨some "a@x.com", some (.str "b@x.com"), some "s", some "t", none,
         none, none, none, some "latest",
         none⟩).response.body.message "Error sending email" ∧
    strContains
      (handler ⟨none, none⟩ [] (fun _ => .ok "mid")
        ⟨some "a@x.com", some (.str "b@x.com"), some "s", some "t", none,
         none, none, none, some "latest",
         none⟩).response.body.message "No AWS profiles found" ∧
    (handler ⟨none, none⟩ [] (fun _ => .ok "mid")
        ⟨some "a@x.com", some (.str "b@x.com"), some "s", some "t", none,
         none, none, none, some "latest",
         none⟩).remoteCalls.length ≤ 1 :=
  c9_error_500 ⟨none, none⟩ [] (fun _ => .ok "mid")
    ⟨some "a@x.com", some (.str "b@x.com"), some "s", some "t", none, none,
     none, none, some "latest", none⟩ "No AWS profiles found"
    (by decide) (by decide) (by decide) (by decide) (Or.inl rfl)

/-- C10: a required field that is present but empty (empty string, or an
empty collection for to_addresses) is treated exactly like a missing one:
400 response, no client construction, no remote call. -/
theorem c10_empty_as_missing_400 (env : Env)
    (available_profiles : List String)
    (remote : EmailParams → Except String String) (event : Event)
    (hempty : event.source = some "" ∨ event.subject = some "" ∨
      event.body_text = some "" ∨ event.to_addresses = some (.str "") ∨
      event.to_addresses = some (.list [])) :
    (handler env available_profiles remote event).response.statusCode =
      400 ∧
    strContains
      (handler env available_profiles remote event).response.body.message
      "Missing required parameters" ∧
    (handler env available_profiles remote
      event).clientConstructionAttempted = false ∧
    (handler env available_profiles remote event).remoteCalls = [] := by
  have hcond : (truthyOptStr event.source && truthyOpt event.to_addresses &&
      truthyOptStr event.subject && truthyOptStr event.body_text) = false :=
    by rcases hempty with h | h | h | h | h <;>
      simp [h, truthyOptStr, truthyOpt, pyTruthy, List.isEmpty]
  rw [handler_400_of_required_falsy env available_profiles remote event
    hcond]
  exact ⟨rfl, strContains_missing_msg, rfl, rfl⟩

/-- C10 witness: an event whose `body_text` is the empty string gets the 400
outcome with no construction and no remote call. -/
theorem c10_empty_as_missing_400_witness :
    (handler ⟨none, none⟩ [] (fun _ => .ok "mid")
        ⟨some "a@x.com", some (.str "b@x.com"), some "s", some "", none,
         none, none, none, none, none⟩).response.statusCode = 400 ∧
    strContains
      (handler ⟨none, none⟩ [] (fun _ => .ok "mid")
        ⟨some "a@x.com", some (.str "b@x.com"), some "s", some "", none,
         none, none, none, none, none⟩).response.body.message
      "Missing required parameters" ∧
    (handler ⟨none, none⟩ [] (fun _ => .ok "mid")
        ⟨some "a@x.com", some (.str "b@x.com"), some "s", some "", none,
         none, none, none, none,
         none⟩).clientConstructionAttempted = false ∧
    (handler ⟨none, none⟩ [] (fun _ => .ok "mid")
        ⟨some "a@x.com", some (.str "b@x.com"), some "s", some "", none,
         none, none, none, none, none⟩).remoteCalls = [] :=
  c10_empty_as_missing_400 ⟨none, none⟩ [] (fun _ => .ok "mid")
    ⟨some "a@x.com", some (.str "b@x.com"), some "s", some "", none, none,
     none, none, none, none⟩ (Or.inr (Or.inr (Or.inl rfl)))

end AwsSes
